import Mathlib

/-!
Shallow embedding of the sf-logx logging client (TypeScript) in Lean 4.

The repository persists structured log records into a Salesforce custom
object `Log__c` and reads them back through SOQL queries.  The embedding
below translates the record mapper (`types.ts`), the Logger facade
(`logger.ts`) and the provisioning helpers (`sf.ts`, `setup.ts`) into
executable Lean definitions, and proves the specified properties.

JavaScript strings are modelled as Lean `String`; `s.slice(0, n)` is
modelled as taking the first `n` characters of the underlying character
list.  JavaScript object fields that may be missing are modelled with
`Option`; where the distinction between an absent key and a key that is
present with value `undefined` matters (object spread), a field is
modelled as `Option (Option String)`: `none` is an absent key,
`some none` a key holding `undefined`, and `some (some s)` a key holding
the string `s`.
-/

namespace SfLogx

/-- Model of `s.slice(0, n)` on a JavaScript string: the first `n` characters. -/
def strTake (n : Nat) (s : String) : String := ⟨s.data.take n⟩

/-- The closed set of log levels (`LogLevel` in `types.ts`). -/
inductive LogLevel where
  | trace
  | debug
  | info
  | warn
  | error
  | fatal
deriving DecidableEq, Repr

/-- Type `BaseLog` from `types.ts`: the caller-facing write-time record, with the
optional fields viewed at value level (absent and `undefined` coincide). -/
structure BaseLog where
  level : LogLevel
  message : String
  stack : Option String
  system : Option String
  user : Option String
deriving DecidableEq, Repr

/-- Type `Log` from `types.ts`: `BaseLog` plus backend-assigned `id` and
`timestamp`. -/
structure Log where
  id : String
  level : LogLevel
  message : String
  stack : Option String
  system : Option String
  user : Option String
  timestamp : String
deriving DecidableEq, Repr

/-- Type `BaseSfLog` from `types.ts`: the Salesforce-side record shape. -/
structure BaseSfLog where
  Level__c : LogLevel
  Message__c : String
  Stack__c : Option String
  System__c : Option String
  User__c : Option String
deriving DecidableEq, Repr

/-- Type `SfLog` from `types.ts`: `BaseSfLog` plus the Salesforce managed
fields `Id` and `CreatedDate`. -/
structure SfLog where
  Level__c : LogLevel
  Message__c : String
  Stack__c : Option String
  System__c : Option String
  User__c : Option String
  Id : String
  CreatedDate : String
deriving DecidableEq, Repr

/-- Function `fromSfLog` from `types.ts`: structural rename/copy, no truncation. -/
def fromSfLog (sfLog : SfLog) : Log :=
  { id := sfLog.Id
    level := sfLog.Level__c
    message := sfLog.Message__c
    stack := sfLog.Stack__c
    system := sfLog.System__c
    user := sfLog.User__c
    timestamp := sfLog.CreatedDate }

/-- Function `toSfLog` from `types.ts`: rename plus per-field `slice` truncation
(255 / 32768 / 255 / 80). -/
def toSfLog (log : BaseLog) : BaseSfLog :=
  { Level__c := log.level
    Message__c := strTake 255 log.message
    Stack__c := log.stack.map (strTake 32768)
    System__c := log.system.map (strTake 255)
    User__c := log.user.map (strTake 80) }

/-- Attach the backend-assigned `Id` and `CreatedDate` to a written
record, producing the shape the backend hands back on a query. -/
def attachSf (b : BaseSfLog) (id createdDate : String) : SfLog :=
  { Level__c := b.Level__c
    Message__c := b.Message__c
    Stack__c := b.Stack__c
    System__c := b.System__c
    User__c := b.User__c
    Id := id
    CreatedDate := createdDate }

/-- Constant `LOG_OBJECT` from `types.ts`. -/
def LOG_OBJECT : String := "Log__c"

/-- Constant `LOG_FIELDS` from `types.ts`: the canonical projection list. -/
def LOG_FIELDS : List String :=
  ["Id", "Level__c", "Message__c", "Stack__c", "System__c", "User__c",
   "CreatedDate"]

end SfLogx

namespace SfLogx

/-- A `BaseLog`-typed JavaScript object viewed at key level, as consumed by
`Logger.log`.  `level` and `message` are required keys; for each optional
key, `none` means the key is absent, `some none` that it is present with
value `undefined`, and `some (some s)` that it holds the string `s`. -/
structure BaseLogJs where
  level : LogLevel
  message : String
  stack : Option (Option String)
  system : Option (Option String)
  user : Option (Option String)
deriving DecidableEq, Repr

/-- A `Partial<BaseLog>` argument to the convenience methods, viewed at key
level for the optional string fields.  `level`/`message` keys are modelled
as present-or-absent only (an explicitly `undefined` level or message is
not exercised by the code under test). -/
structure LogPatch where
  level : Option LogLevel
  message : Option String
  stack : Option (Option String)
  system : Option (Option String)
  user : Option (Option String)
deriving DecidableEq, Repr

/-- The `Logger` instance state from `logger.ts`: the constructor stores
`defaults = \x7b system: options.system ?? hostname(), user: options.user ??
userInfo().username \x7d` and `echo = options.echo ?? false` (the connection
handle is opaque and omitted). -/
structure Logger where
  defaultSystem : String
  defaultUser : String
  echo : Bool
deriving DecidableEq, Repr

/-- The constructor options object (minus the connection handle). -/
structure LoggerOptions where
  echo : Option Bool
  system : Option String
  user : Option String
deriving DecidableEq, Repr

/-- The `Logger` constructor: `??` falls back to the local hostname and OS
username, which are passed here as explicit parameters. -/
def Logger.make (options : LoggerOptions) (hostname username : String) :
    Logger :=
  { defaultSystem := options.system.getD hostname
    defaultUser := options.user.getD username
    echo := options.echo.getD false }

/-- The merge `\x7b ...this.defaults, ...log \x7d` in `Logger.log`, read back at value
level.  `defaults` always carries string-valued `system` and `user` keys
and no other keys, so a key present in `log` (even with value `undefined`)
wins, and a key absent from `log` falls back to the default (or to
`undefined` for `stack`). -/
def Logger.merged (L : Logger) (r : BaseLogJs) : BaseLog :=
  { level := r.level
    message := r.message
    stack := r.stack.getD none
    system := r.system.getD (some L.defaultSystem)
    user := r.user.getD (some L.defaultUser) }

/-- Method `Logger.log`: the record handed to `conn.sobject(LOG_OBJECT).insert`,
namely `toSfLog` of the merged record. -/
def Logger.log (L : Logger) (r : BaseLogJs) : BaseSfLog :=
  toSfLog (L.merged r)

/-- The record literal `\x7b level: lvl, message, ...log \x7d` built by the
`trace`/`debug`/`info`/`warn` convenience methods. -/
def convRecord (lvl : LogLevel) (message : String) (p : Option LogPatch) :
    BaseLogJs :=
  match p with
  | none =>
    { level := lvl, message := message, stack := none, system := none
      user := none }
  | some p =>
    { level := p.level.getD lvl
      message := p.message.getD message
      stack := p.stack
      system := p.system
      user := p.user }

/-- Method `Logger.trace`: insert with level fixed to `trace` before the spread. -/
def Logger.trace (L : Logger) (m : String) (p : Option LogPatch) :
    BaseSfLog :=
  L.log (convRecord .trace m p)

/-- Method `Logger.debug`: insert with level fixed to `debug` before the spread. -/
def Logger.debug (L : Logger) (m : String) (p : Option LogPatch) :
    BaseSfLog :=
  L.log (convRecord .debug m p)

/-- Method `Logger.info`: insert with level fixed to `info` before the spread. -/
def Logger.info (L : Logger) (m : String) (p : Option LogPatch) :
    BaseSfLog :=
  L.log (convRecord .info m p)

/-- Method `Logger.warn`: insert with level fixed to `warn` before the spread. -/
def Logger.warn (L : Logger) (m : String) (p : Option LogPatch) :
    BaseSfLog :=
  L.log (convRecord .warn m p)

/-- An arbitrary JavaScript value as far as `Logger.error` inspects it:
either an `Error` object (message, possibly-`undefined` stack text, and a
`cause` value, where the absent-cause case is the non-`Error` value
`undefined`), or any non-`Error` value carrying its `JSON.stringify`
serialization. -/
inductive JsValue where
  | error (message : String) (stack : Option String) (cause : JsValue)
  | other (serialized : String)
deriving DecidableEq, Repr

/-- JavaScript string coercion of a possibly-`undefined` string, as
performed by `+=` and template interpolation. -/
def jsString : Option String → String
  | none => "undefined"
  | some s => s

/-- The `while (cause instanceof Error)` loop of `Logger.error`: given the
current cause candidate and the message/stack accumulators, append
`" | Cause: <msg>"` and `"\nCaused by: <stack>"` for each `Error` link and
step to its own cause. -/
def walkCause : JsValue → String → String → String × String
  | .error m s c, msg, stk =>
    walkCause c (msg ++ " | Cause: " ++ m)
      (stk ++ "\nCaused by: " ++ jsString s)
  | .other _, msg, stk => (msg, stk)

/-- The `\x7bmessage, stack\x7d` normalization of `Logger.error`: an
`Error` keeps its message and stack, with the cause chain flattened onto
both (the first `+=` coerces an `undefined` stack to the string
`"undefined"`); a non-`Error` value yields a prefixed serialization and no
stack. -/
def errorFields : JsValue → String × Option String
  | .error m s (.error cm cs cc) =>
    let r := walkCause (.error cm cs cc) m (jsString s)
    (r.1, some r.2)
  | .error m s (.other _) => (m, s)
  | .other ser => ("Non error thrown: " ++ ser, none)

/-- The record literal `\x7b level: error, message, stack, ...log \x7d`
built by `Logger.error` (the `stack` key is always present, possibly with
value `undefined`). -/
def errorBaseJs (thrown : JsValue) (p : Option LogPatch) : BaseLogJs :=
  let f := errorFields thrown
  match p with
  | none =>
    { level := .error, message := f.1, stack := some f.2, system := none
      user := none }
  | some p =>
    { level := p.level.getD .error
      message := p.message.getD f.1
      stack := some (p.stack.getD f.2)
      system := p.system
      user := p.user }

/-- Method `Logger.error`: the record handed to insert for a thrown
value. -/
def Logger.error (L : Logger) (thrown : JsValue) (p : Option LogPatch) :
    BaseSfLog :=
  L.log (errorBaseJs thrown p)

/-- Method `Logger.fatal`: delegates to `error` with the patch
`\x7b level: fatal, ...log \x7d`. -/
def Logger.fatal (L : Logger) (thrown : JsValue) (p : Option LogPatch) :
    BaseSfLog :=
  L.error thrown (some (match p with
    | none => ⟨some .fatal, none, none, none, none⟩
    | some p => ⟨some (p.level.getD .fatal), p.message, p.stack, p.system,
        p.user⟩))

/-- The message suffix the cause-chain walk contributes: one
`" | Cause: <msg>"` per `Error` link. -/
def causeMsgs : JsValue → String
  | .error m _ c => " | Cause: " ++ m ++ causeMsgs c
  | .other _ => ""

/-- The stack suffix the cause-chain walk contributes: one
`"\nCaused by: <stack>"` per `Error` link. -/
def causeStks : JsValue → String
  | .error _ s c => "\nCaused by: " ++ jsString s ++ causeStks c
  | .other _ => ""

theorem walkCause_eq (c : JsValue) : ∀ msg stk,
    walkCause c msg stk = (msg ++ causeMsgs c, stk ++ causeStks c) := by
  induction c with
  | error m s c ih =>
    intro msg stk
    simp [walkCause, causeMsgs, causeStks, ih, String.append_assoc]
  | other ser =>
    intro msg stk
    simp [walkCause, causeMsgs, causeStks]

/-- The number of occurrences of `pat` in `s` (as character lists). -/
def countOcc (pat s : List Char) : Nat :=
  ((List.range (s.length + 1)).filter
    (fun i => pat.isPrefixOf (s.drop i))).length

/-- String-level occurrence count. -/
def strCount (pat s : String) : Nat := countOcc pat.data s.data

/-- The three-level example chain from the test suite: `Top` caused by
`Mid` caused by `Root`. -/
def exRoot : JsValue := .error "Root" (some "SR") (.other "undefined")

/-- Middle link of the example chain. -/
def exMid : JsValue := .error "Mid" (some "SM") exRoot

/-- Top of the example chain. -/
def exTop : JsValue := .error "Top" (some "ST") exMid

/-- A failure raised by a remote Salesforce call, carrying the
`errorCode` that `verifyObject` inspects. -/
structure SfError where
  errorCode : String
deriving DecidableEq, Repr

/-- Function `verifyObject` from `sf.ts`, over the outcome of
`conn.sobject(objectName).describe()` (modelled as either a raised
`SfError` or the list of described field names): a `NOT_FOUND` describe
failure yields `false`, any other describe failure is re-raised, a
missing required field yields `false`, and otherwise the result is
`true`. -/
def verifyObject (describeOutcome : Except SfError (List String))
    (requiredFields : List String) : Except SfError Bool :=
  match describeOutcome with
  | .error e =>
    if e.errorCode = "NOT_FOUND" then .ok false else .error e
  | .ok existingFields =>
    let missingFields :=
      requiredFields.filter (fun f => ! existingFields.contains f)
    if missingFields.length > 0 then .ok false else .ok true

/-- Function `verifyLog` from `setup.ts`: verify `Log__c` against the
canonical field list. -/
def verifyLog (describeOutcome : Except SfError (List String)) :
    Except SfError Bool :=
  verifyObject describeOutcome LOG_FIELDS

/-- One remote mutation-relevant call performed during setup. -/
inductive RemoteCall where
  | describeLog
  | deployLog
  | assignPermSet
deriving DecidableEq, Repr

/-- The backend behaviour a single `setupLog` run can observe: the outcome
of the first describe, whether the deploy reports success, the outcome of
the permission-set assignment (raised message, or whether a new
assignment was created), and the outcome of the describe issued by the
re-verify. -/
structure SetupEnv where
  describe1 : Except SfError (List String)
  deploySuccess : Bool
  assignOutcome : Except String Bool
  describe2 : Except SfError (List String)
deriving Repr

/-- Function `setupLog` from `setup.ts`, instrumented with the list of
remote calls it issues: verify, and only when verification fails, deploy
the bundled schema, assign the `Log` permission set, and re-verify,
raising `Log object setup failed` when the re-verify still fails. -/
def setupLog (env : SetupEnv) : List RemoteCall × Except String Unit :=
  match verifyLog env.describe1 with
  | .error e => ([.describeLog], .error e.errorCode)
  | .ok true => ([.describeLog], .ok ())
  | .ok false =>
    if !env.deploySuccess then
      ([.describeLog, .deployLog], .error "Deploy failed")
    else
      match env.assignOutcome with
      | .error msg =>
        ([.describeLog, .deployLog, .assignPermSet], .error msg)
      | .ok _ =>
        match verifyLog env.describe2 with
        | .error e =>
          ([.describeLog, .deployLog, .assignPermSet, .describeLog],
           .error e.errorCode)
        | .ok true =>
          ([.describeLog, .deployLog, .assignPermSet, .describeLog],
           .ok ())
        | .ok false =>
          ([.describeLog, .deployLog, .assignPermSet, .describeLog],
           .error "Log object setup failed")

/-- JavaScript truthiness of the optional numeric `limit`: `undefined` and
`0` are falsy. -/
def jsTruthyNat : Option Nat → Bool
  | none => false
  | some n => n != 0

/-- The SOQL string built by `Logger.getLogs`: the SELECT / FROM / ORDER
BY parts plus a LIMIT part when the limit is truthy, the falsy (empty)
parts filtered out, joined with single spaces. -/
def getLogsSoql (limit : Option Nat) : String :=
  let parts : List String :=
    ["SELECT " ++ String.intercalate ", " LOG_FIELDS,
     "FROM " ++ LOG_OBJECT,
     "ORDER BY CreatedDate DESC",
     if jsTruthyNat limit then "LIMIT " ++ toString (limit.getD 0) else ""]
  String.intercalate " " (parts.filter (fun s => s != ""))

/-- Method `Logger.getLogs`: the issued query string, and the rows the
backend returns mapped element-wise through `fromSfLog`. -/
def getLogs (limit : Option Nat) (rows : List SfLog) :
    String × List Log :=
  (getLogsSoql limit, rows.map fromSfLog)

/-- A sample backend row. -/
def sfEx : SfLog :=
  { Level__c := .info, Message__c := "m", Stack__c := none
    System__c := none, User__c := none, Id := "id1", CreatedDate := "t1" }

theorem strTake_length_le (n : Nat) (s : String) : (strTake n s).length ≤ n := by
  have h := List.length_take n s.data
  simp only [strTake, String.length]
  omega

theorem strTake_isPre (n : Nat) (s : String) : (strTake n s).data <+: s.data :=
  List.take_prefix n s.data

/-- A 300-character message starting with `LONG-`, as in the long-message
test of `logger.test.ts`. -/
def exMessage : String := "LONG-" ++ ⟨List.replicate 295 (Char.ofNat 65)⟩

/-- A sample record with every optional field populated. -/
def rEx : BaseLog :=
  { level := .info, message := exMessage, stack := some "st"
    system := some "sys", user := some "u" }

/-- C1: round-tripping a `BaseLog` through `toSfLog`, backend id/timestamp
attachment and `fromSfLog` reproduces every field truncated to its limit,
keeps absent optional fields absent, and installs the attached id and
timestamp. -/
theorem fromSfLog_attachSf_toSfLog (r : BaseLog) (id ts : String) :
    fromSfLog (attachSf (toSfLog r) id ts) =
      { id := id
        level := r.level
        message := strTake 255 r.message
        stack := r.stack.map (strTake 32768)
        system := r.system.map (strTake 255)
        user := r.user.map (strTake 80)
        timestamp := ts } := rfl

/-- C2: `toSfLog` bounds every produced field to its limit (255 / 32768 /
255 / 80 characters), every produced field is a prefix of the input field,
absent optional fields stay absent, and `fromSfLog` copies field contents
unmodified at read time. -/
theorem toSfLog_field_limits :
    (∀ r : BaseLog,
      (toSfLog r).Message__c.length ≤ 255 ∧
      (∀ s, (toSfLog r).Stack__c = some s → s.length ≤ 32768) ∧
      (∀ s, (toSfLog r).System__c = some s → s.length ≤ 255) ∧
      (∀ s, (toSfLog r).User__c = some s → s.length ≤ 80) ∧
      (toSfLog r).Message__c.data <+: r.message.data ∧
      (∀ t s, r.stack = some t → (toSfLog r).Stack__c = some s →
        s.data <+: t.data) ∧
      (∀ t s, r.system = some t → (toSfLog r).System__c = some s →
        s.data <+: t.data) ∧
      (∀ t s, r.user = some t → (toSfLog r).User__c = some s →
        s.data <+: t.data) ∧
      (r.stack = none → (toSfLog r).Stack__c = none) ∧
      (r.system = none → (toSfLog r).System__c = none) ∧
      (r.user = none → (toSfLog r).User__c = none)) ∧
    (∀ sf : SfLog,
      (fromSfLog sf).message = sf.Message__c ∧
      (fromSfLog sf).stack = sf.Stack__c ∧
      (fromSfLog sf).system = sf.System__c ∧
      (fromSfLog sf).user = sf.User__c) := by
  constructor
  · intro r
    refine ⟨strTake_length_le _ _, ?_, ?_, ?_, strTake_isPre _ _,
      ?_, ?_, ?_, ?_, ?_, ?_⟩
    · intro s hs
      cases h : r.stack with
      | none => simp [toSfLog, h] at hs
      | some t =>
        simp [toSfLog, h] at hs
        exact hs ▸ strTake_length_le _ _
    · intro s hs
      cases h : r.system with
      | none => simp [toSfLog, h] at hs
      | some t =>
        simp [toSfLog, h] at hs
        exact hs ▸ strTake_length_le _ _
    · intro s hs
      cases h : r.user with
      | none => simp [toSfLog, h] at hs
      | some t =>
        simp [toSfLog, h] at hs
        exact hs ▸ strTake_length_le _ _
    · intro t s ht hs
      simp [toSfLog, ht] at hs
      exact hs ▸ strTake_isPre _ _
    · intro t s ht hs
      simp [toSfLog, ht] at hs
      exact hs ▸ strTake_isPre _ _
    · intro t s ht hs
      simp [toSfLog, ht] at hs
      exact hs ▸ strTake_isPre _ _
    · intro h
      simp [toSfLog, h]
    · intro h
      simp [toSfLog, h]
    · intro h
      simp [toSfLog, h]
  · intro sf
    exact ⟨rfl, rfl, rfl, rfl⟩

/-- Witness for C2 at the concrete 300-character `LONG-` record. -/
theorem toSfLog_field_limits_witness :
    (toSfLog rEx).Message__c.length ≤ 255 ∧
    (toSfLog rEx).Message__c.data <+: rEx.message.data ∧
    (∃ s, (toSfLog rEx).Stack__c = some s ∧ s.length ≤ 32768) :=
  ⟨(toSfLog_field_limits.1 rEx).1,
   (toSfLog_field_limits.1 rEx).2.2.2.2.1,
   ⟨strTake 32768 "st", rfl, (toSfLog_field_limits.1 rEx).2.1 _ rfl⟩⟩

/-- C5: for a structured `Error`, `Logger.error` builds the message by
appending one `" | Cause: <msg>"` per `Error` link of the cause chain and
the stack by appending one `"\nCaused by: <stack>"` per link, stopping at
the first non-`Error` cause; on the concrete `Top`/`Mid`/`Root` chain the
stored message contains `"Top"`, `"Cause: Mid"` and `"Cause: Root"` and
the stored stack contains exactly two `"Caused by:"` markers. -/
theorem error_cause_chain :
    (∀ m s (c : JsValue),
      (errorFields (.error m s c)).1 = m ++ causeMsgs c ∧
      (errorFields (.error m s c)).2 =
        (match c with
        | .error _ _ _ => some (jsString s ++ causeStks c)
        | .other _ => s)) ∧
    ((Logger.mk "S" "U" false).error exTop none).Message__c =
      "Top | Cause: Mid | Cause: Root" ∧
    ((Logger.mk "S" "U" false).error exTop none).Stack__c =
      some "ST\nCaused by: SM\nCaused by: SR" ∧
    strCount "Caused by:" "ST\nCaused by: SM\nCaused by: SR" = 2 ∧
    1 ≤ strCount "Top" "Top | Cause: Mid | Cause: Root" ∧
    1 ≤ strCount "Cause: Mid" "Top | Cause: Mid | Cause: Root" ∧
    1 ≤ strCount "Cause: Root" "Top | Cause: Mid | Cause: Root" := by
  refine ⟨?_, by decide, by decide, by decide, by decide, by decide,
    by decide⟩
  intro m s c
  cases c with
  | error cm cs cc =>
    constructor
    · simp [errorFields, walkCause_eq, causeMsgs, String.append_assoc]
    · simp [errorFields, walkCause_eq, causeStks, String.append_assoc]
  | other ser =>
    exact ⟨by simp [errorFields, causeMsgs], rfl⟩

/-- The describe outcome a backend in a quiescent state keeps reporting
after a `setupLog` run: the first describe result when that run
short-circuited at verification, and the post-deploy describe result
otherwise (describe itself mutates nothing). -/
def lastDescribe (env : SetupEnv) : Except SfError (List String) :=
  match verifyLog env.describe1 with
  | .ok true => env.describe1
  | _ => env.describe2

theorem setupLog_verified_trace (env : SetupEnv)
    (h : verifyLog env.describe1 = .ok true) :
    setupLog env = ([RemoteCall.describeLog], .ok ()) := by
  simp [setupLog, h]

/-- C6: when verification of the log object succeeds, `setupLog` issues
only the single describe call and returns without deploying or assigning
a permission set; hence a second `setupLog` run against the unchanged
backend left by a successful run performs zero additional deploy/assign
calls. -/
theorem setupLog_frame :
    (∀ env : SetupEnv, verifyLog env.describe1 = .ok true →
      (setupLog env).1 = [RemoteCall.describeLog] ∧
      RemoteCall.deployLog ∉ (setupLog env).1 ∧
      RemoteCall.assignPermSet ∉ (setupLog env).1 ∧
      (setupLog env).2 = .ok ()) ∧
    (∀ env env2 : SetupEnv, (setupLog env).2 = .ok () →
      env2.describe1 = lastDescribe env →
      (setupLog env2).1 = [RemoteCall.describeLog] ∧
      RemoteCall.deployLog ∉ (setupLog env2).1 ∧
      RemoteCall.assignPermSet ∉ (setupLog env2).1 ∧
      (setupLog env2).2 = .ok ()) := by
  constructor
  · intro env h
    simp [setupLog, h]
  · intro env env2 hok heq
    have h2 : verifyLog env2.describe1 = .ok true := by
      cases hv1 : verifyLog env.describe1 with
      | error e => simp [setupLog, hv1] at hok
      | ok b =>
        cases b with
        | true =>
          have hld : lastDescribe env = env.describe1 := by
            simp [lastDescribe, hv1]
          rw [heq, hld]
          exact hv1
        | false =>
          have hld : lastDescribe env = env.describe2 := by
            simp [lastDescribe, hv1]
          cases hd : env.deploySuccess with
          | false => simp [setupLog, hv1, hd] at hok
          | true =>
            cases ha : env.assignOutcome with
            | error msg => simp [setupLog, hv1, hd, ha] at hok
            | ok b2 =>
              cases hv2 : verifyLog env.describe2 with
              | error e => simp [setupLog, hv1, hd, ha, hv2] at hok
              | ok b3 =>
                cases b3 with
                | false => simp [setupLog, hv1, hd, ha, hv2] at hok
                | true =>
                  rw [heq, hld]
                  exact hv2
    simp [setupLog, h2]

/-- Witness for C6 at a backend whose describe lists the canonical
fields, for both a single run and the run after a successful run. -/
theorem setupLog_frame_witness :
    verifyLog (Except.ok LOG_FIELDS) = .ok true ∧
    (setupLog ⟨.ok LOG_FIELDS, true, .ok true, .ok LOG_FIELDS⟩).1 =
      [RemoteCall.describeLog] ∧
    (setupLog ⟨.ok LOG_FIELDS, false, .error "e", .error ⟨"X"⟩⟩).1 =
      [RemoteCall.describeLog] :=
  ⟨rfl,
   (setupLog_frame.1 ⟨.ok LOG_FIELDS, true, .ok true, .ok LOG_FIELDS⟩
     rfl).1,
   (setupLog_frame.2 ⟨.ok LOG_FIELDS, true, .ok true, .ok LOG_FIELDS⟩
     ⟨.ok LOG_FIELDS, false, .error "e", .error ⟨"X"⟩⟩ rfl rfl).1⟩

theorem verifyObject_ok_iff (fields req : List String) :
    verifyObject (.ok fields) req =
      (if ∀ f ∈ req, f ∈ fields then .ok true else .ok false) := by
  by_cases hall : ∀ f ∈ req, f ∈ fields
  · have hfil : req.filter (fun g => ! decide (g ∈ fields)) = [] := by
      refine List.filter_eq_nil_iff.2 ?_
      intro a ha
      simp [hall a ha]
    rw [if_pos hall]
    simp [verifyObject, hfil]
  · rw [if_neg hall]
    push_neg at hall
    obtain ⟨f, hf, hnf⟩ := hall
    have hfl : f ∈ req.filter (fun g => ! decide (g ∈ fields)) :=
      List.mem_filter.2 ⟨hf, by simp [hnf]⟩
    have hlen : 0 < (req.filter (fun g => ! decide (g ∈ fields))).length :=
      List.length_pos.2 (List.ne_nil_of_mem hfl)
    simp [verifyObject, hlen]

/-- C7: `verifyObject` converts a `NOT_FOUND` describe failure to `false`
without raising, re-raises any other describe failure, reports `false`
when a required field is missing from the described fields, and reports
`true` exactly when the object was described and every required field is
present. -/
theorem verifyObject_spec (req : List String) :
    (∀ e : SfError, e.errorCode = "NOT_FOUND" →
      verifyObject (.error e) req = .ok false) ∧
    (∀ e : SfError, e.errorCode ≠ "NOT_FOUND" →
      verifyObject (.error e) req = .error e) ∧
    (∀ fields : List String, (∃ f, f ∈ req ∧ f ∉ fields) →
      verifyObject (.ok fields) req = .ok false) ∧
    (∀ d : Except SfError (List String),
      verifyObject d req = .ok true ↔
        ∃ fields, d = .ok fields ∧ ∀ f ∈ req, f ∈ fields) := by
  refine ⟨?_, ?_, ?_, ?_⟩
  · intro e h
    simp [verifyObject, h]
  · intro e h
    simp [verifyObject, h]
  · intro fields hmiss
    obtain ⟨f, hf, hnf⟩ := hmiss
    rw [verifyObject_ok_iff, if_neg]
    intro hall
    exact hnf (hall f hf)
  · intro d
    cases d with
    | error e =>
      by_cases h : e.errorCode = "NOT_FOUND" <;> simp [verifyObject, h]
    | ok fields =>
      rw [verifyObject_ok_iff]
      by_cases hall : ∀ f ∈ req, f ∈ fields
      · simp [hall]
      · simp [hall]

/-- Witness for C7 at concrete describe outcomes over the canonical field
list. -/
theorem verifyObject_spec_witness :
    verifyObject (.error ⟨"NOT_FOUND"⟩) LOG_FIELDS = .ok false ∧
    verifyObject (.error ⟨"INVALID_SESSION_ID"⟩) LOG_FIELDS =
      .error ⟨"INVALID_SESSION_ID"⟩ ∧
    verifyObject (.ok ["Id"]) LOG_FIELDS = .ok false ∧
    verifyObject (.ok LOG_FIELDS) LOG_FIELDS = .ok true :=
  ⟨(verifyObject_spec LOG_FIELDS).1 ⟨"NOT_FOUND"⟩ rfl,
   (verifyObject_spec LOG_FIELDS).2.1 ⟨"INVALID_SESSION_ID"⟩ (by decide),
   (verifyObject_spec LOG_FIELDS).2.2.1 ["Id"]
     ⟨"Level__c", by decide, by decide⟩,
   ((verifyObject_spec LOG_FIELDS).2.2.2 (.ok LOG_FIELDS)).2
     ⟨LOG_FIELDS, rfl, by decide⟩⟩

/-- Counterexample to C8 as frozen: supplying the limit `0` yields a
query with no LIMIT clause, not `... LIMIT 0`. -/
theorem getLogsSoql_zero_cex :
    getLogsSoql (some 0) ≠
      getLogsSoql none ++ " LIMIT " ++ toString 0 ∧
    getLogsSoql (some 0) =
      "SELECT Id, Level__c, Message__c, Stack__c, System__c, User__c, CreatedDate FROM Log__c ORDER BY CreatedDate DESC" := by
  constructor
  · decide
  · decide

/-- C8 (amended): for a nonzero limit `n`, the issued query is exactly
`SELECT <canonical field list> FROM Log__c ORDER BY CreatedDate DESC`
with ` LIMIT <n>` appended (for an absent limit, without it), and the
returned list is the backend row list mapped element-wise through
`fromSfLog` with order preserved. -/
theorem getLogs_query_shape (n : Nat) (hn : n ≠ 0) (rows : List SfLog) :
    getLogsSoql (some n) = getLogsSoql none ++ " LIMIT " ++ toString n ∧
    getLogsSoql none =
      "SELECT Id, Level__c, Message__c, Stack__c, System__c, User__c, CreatedDate FROM Log__c ORDER BY CreatedDate DESC" ∧
    (getLogs (some n) rows).1 = getLogsSoql (some n) ∧
    (getLogs (some n) rows).2 = rows.map fromSfLog ∧
    ((getLogs (some n) rows).2).length = rows.length ∧
    (∀ i (h1 : i < ((getLogs (some n) rows).2).length)
        (h2 : i < rows.length),
      ((getLogs (some n) rows).2).get ⟨i, h1⟩ =
        fromSfLog (rows.get ⟨i, h2⟩)) := by
  refine ⟨?_, by decide, rfl, rfl, by simp [getLogs], ?_⟩
  · cases n with
    | zero => exact absurd rfl hn
    | succ m => rfl
  · intro i h1 h2
    simp [getLogs]

/-- Witness for C8 (amended) at limit 2 and a one-row backend. -/
theorem getLogs_query_shape_witness :
    getLogsSoql (some 2) = getLogsSoql none ++ " LIMIT " ++ toString 2 ∧
    (getLogs (some 2) [sfEx]).2 = [fromSfLog sfEx] :=
  ⟨(getLogs_query_shape 2 (by decide) [sfEx]).1,
   ((getLogs_query_shape 2 (by decide) [sfEx]).2.2.2.1).trans rfl⟩

/-- C9: a zero limit is tested for truthiness, so `getLogs` with limit 0
issues the same unbounded query as an absent limit, with no LIMIT clause
at all. -/
theorem getLogs_limit_zero_unbounded :
    getLogsSoql (some 0) = getLogsSoql none ∧
    strCount "LIMIT" (getLogsSoql (some 0)) = 0 := ⟨rfl, by decide⟩

/-- C3: `Logger.log` inserts `toSfLog` of the defaults-then-record merge,
where every key explicitly present in the record wins over the instance
default and defaults fill only the keys the record omits; in particular a
Logger built with system `S` and user `U` stores `info("m")` with level
`info`, system `S`, user `U`. -/
theorem log_defaults_merge :
    (∀ (L : Logger) (r : BaseLogJs),
      L.log r = toSfLog (L.merged r) ∧
      (L.merged r).level = r.level ∧
      (L.merged r).message = r.message ∧
      (∀ v, r.system = some v → (L.merged r).system = v) ∧
      (r.system = none → (L.merged r).system = some L.defaultSystem) ∧
      (∀ v, r.user = some v → (L.merged r).user = v) ∧
      (r.user = none → (L.merged r).user = some L.defaultUser) ∧
      (∀ v, r.stack = some v → (L.merged r).stack = v) ∧
      (r.stack = none → (L.merged r).stack = none)) ∧
    (∀ h u, (Logger.make ⟨none, some "S", some "U"⟩ h u).info "m" none =
      { Level__c := .info, Message__c := "m", Stack__c := none,
        System__c := some "S", User__c := some "U" }) := by
  constructor
  · intro L r
    refine ⟨rfl, rfl, rfl, ?_, ?_, ?_, ?_, ?_, ?_⟩
    · intro v h
      simp [Logger.merged, h]
    · intro h
      simp [Logger.merged, h]
    · intro v h
      simp [Logger.merged, h]
    · intro h
      simp [Logger.merged, h]
    · intro v h
      simp [Logger.merged, h]
    · intro h
      simp [Logger.merged, h]
  · intro h u
    rfl

/-- Witness for C3 at a concrete logger and record with an explicitly
supplied `system` key. -/
theorem log_defaults_merge_witness :
    ((Logger.mk "S" "U" false).merged
      ⟨.warn, "m", none, some (some "X"), none⟩).system = some "X" ∧
    ((Logger.mk "S" "U" false).merged
      ⟨.warn, "m", none, some (some "X"), none⟩).user = some "U" :=
  ⟨(log_defaults_merge.1 (Logger.mk "S" "U" false)
      ⟨.warn, "m", none, some (some "X"), none⟩).2.2.2.1 (some "X") rfl,
   (log_defaults_merge.1 (Logger.mk "S" "U" false)
      ⟨.warn, "m", none, some (some "X"), none⟩).2.2.2.2.2.2.1 rfl⟩

/-- C4: the convenience methods set their fixed level first and then
spread the caller's partial record over it, so a caller-supplied `level`
key wins; in particular `info(m, \x7blevel: error\x7d)` inserts a record
with level `error`. -/
theorem conv_level_override :
    (∀ lvl m (p : LogPatch) lvl2, p.level = some lvl2 →
      (convRecord lvl m (some p)).level = lvl2) ∧
    (∀ (L : Logger) m (p : LogPatch) lvl2, p.level = some lvl2 →
      (L.trace m (some p)).Level__c = lvl2 ∧
      (L.debug m (some p)).Level__c = lvl2 ∧
      (L.info m (some p)).Level__c = lvl2 ∧
      (L.warn m (some p)).Level__c = lvl2) ∧
    (∀ (L : Logger) m,
      (L.info m (some ⟨some .error, none, none, none, none⟩)).Level__c =
        .error) := by
  refine ⟨?_, ?_, ?_⟩
  · intro lvl m p lvl2 h
    simp [convRecord, h]
  · intro L m p lvl2 h
    refine ⟨?_, ?_, ?_, ?_⟩ <;>
      simp [Logger.trace, Logger.debug, Logger.info, Logger.warn,
        Logger.log, Logger.merged, toSfLog, convRecord, h]
  · intro L m
    rfl

/-- Witness for C4 at a concrete logger, message and patch. -/
theorem conv_level_override_witness :
    ((Logger.mk "S" "U" false).info "m"
      (some ⟨some .fatal, none, none, none, none⟩)).Level__c = .fatal :=
  ((conv_level_override.2.1 (Logger.mk "S" "U" false) "m"
    ⟨some .fatal, none, none, none, none⟩ .fatal rfl).2.2.1)

/-- C10: a record key explicitly present with value `undefined` suppresses
the instance default: the stored field is absent rather than falling back
to the default, because the record is spread over the defaults key by
key. -/
theorem explicit_undefined_suppresses_default :
    ∀ (L : Logger) (r : BaseLogJs),
      (r.system = some none → (L.log r).System__c = none) ∧
      (r.user = some none → (L.log r).User__c = none) := by
  intro L r
  constructor <;> intro h <;>
    simp [Logger.log, Logger.merged, toSfLog, h]

/-- Witness for C10: a logger with default system `S` and a record whose
`system` key is present with value `undefined` stores no system field. -/
theorem explicit_undefined_suppresses_default_witness :
    ((Logger.mk "S" "U" false).log
      ⟨.info, "m", none, some none, some none⟩).System__c = none ∧
    ((Logger.mk "S" "U" false).log
      ⟨.info, "m", none, some none, some none⟩).User__c = none :=
  ⟨(explicit_undefined_suppresses_default (Logger.mk "S" "U" false)
      ⟨.info, "m", none, some none, some none⟩).1 rfl,
   (explicit_undefined_suppresses_default (Logger.mk "S" "U" false)
      ⟨.info, "m", none, some none, some none⟩).2 rfl⟩

end SfLogx
